import Mathlib

/-!
Shallow embedding of the two PagerDuty hook classes in
`src/providers/pagerduty/src/airflow/providers/pagerduty/hooks/`:
`EventsAPiV2Client` (file APiV2Client.py) and `ApiClient` (file ApiClient.py).

Python runtime failures that matter to the claims are modelled explicitly as
values of `PyError`:
  - `attributeError a` — attribute lookup of `a` failed (the classes declare
    no base class, so lookup falls back to the class dict and then `object`);
  - `nameError n` — a free name `n` in a function body or class body is bound
    neither locally nor at module scope;
  - `airflowException msg` — the `AirflowException` raised by the hooks
    (the error kind the spec calls ConfigurationError / RemoteServiceError);
  - `pagerDutyError msg` — the external library error type
    `pagerduty.PagerDutyError`;
  - `keyError k` / `typeError` — dictionary subscription failures.

Python dict / str values are modelled by `PyVal`; dictionaries keep insertion
order as association lists, as Python dicts do.
-/

inductive PyError where
  | attributeError (attr : String)
  | nameError (name : String)
  | airflowException (msg : String)
  | pagerDutyError (msg : String)
  | keyError (key : String)
  | typeError
  deriving Repr, DecidableEq

inductive PyVal where
  | str (s : String)
  | dict (fields : List (String × PyVal))
  | list (elems : List PyVal)
  deriving Repr

/-- Python attribute lookup against a fixed class dict: the classes here have
no base class, so a name not in the class dict (and not an instance field)
raises `AttributeError`. -/
def getattrOnClass (classAttrs : List String) (name : String) : Except PyError Unit :=
  if classAttrs.contains name then .ok () else .error (.attributeError name)

/-- Python name resolution inside a scope given by the list of bound names:
an unbound name raises `NameError`. -/
def resolveName (scope : List String) (name : String) : Except PyError Unit :=
  if scope.contains name then .ok () else .error (.nameError name)

/-- Subscription `d[k]` on a `PyVal`: a dict looks the key up (raising
`KeyError` when absent); subscripting a non-dict with a string key raises
`TypeError`. -/
def PyVal.getItem : PyVal → String → Except PyError PyVal
  | .dict fields, k =>
      match fields.lookup k with
      | some v => .ok v
      | none => .error (.keyError k)
  | .str _, _ => .error .typeError
  | .list _, _ => .error .typeError

/-- Rendering of `self.integration_key` inside an f-string: Python prints
`None` for the absent value. -/
def pyStr : Option String → String
  | some s => s
  | none => "None"

/-- Oracle for the external library session object that the hooks would hold
in `self._session`: each field is one operation of the
`pagerduty` events client, returning either a response value or a raised
exception. Nothing in `APiV2Client.py` ever creates such a session. -/
structure EventsSession where
  post_event : PyVal → Except PyError PyVal
  acknowledge_event : String → Except PyError Unit
  resolve_event : String → Except PyError Unit
  send_event : PyVal → String → Option String → Except PyError PyVal

/-- Instance state of `EventsAPiV2Client` after `__init__` ran to completion:
the two instance attributes assigned in `__init__`. -/
structure EventsAPiV2Client where
  integration_key : Option String
  session : Option EventsSession

/-- Names in the class dict of `EventsAPiV2Client` (APiV2Client.py lines
13-234): exactly the methods defined in the class body. The class declares no
base class — `BaseHook` is imported but unused — so attribute lookup on an
instance sees only these names, the two instance fields, and `object`. -/
def EventsAPiV2Client.classAttrs : List String :=
  ["__init__", "acknowledge_event", "post_event", "prepare_headers",
   "resolve_event", "send_change_event", "send_event", "submit_event",
   "trigger_event"]

/-- Message of the `AirflowException` raised by both constructors when no
token was resolved (APiV2Client.py lines 31-34, ApiClient.py lines 31-34). -/
def noTokenMsg : String :=
  "Cannot get token: No valid integration key nor pagerduty_events_conn_id supplied."

/-- Lines 28-29 of both constructors: an explicit `integration_key` argument
overrides whatever the connection lookup produced
("token takes higher priority"). -/
def resolveKey (fromConn : Option String) (integration_key : Option String) :
    Option String :=
  match integration_key with
  | some k => some k
  | none => fromConn

/-- Embedding of `EventsAPiV2Client.__init__` (APiV2Client.py lines 19-34).
`store` stands for the external credential store reached through
`BaseHook.get_connection(...).get_password()`; it is only consulted on the
branch where the `get_connection` attribute lookup succeeds, which for this
class it never does, because the class has no base class and defines no
`get_connection` (see `EventsAPiV2Client.classAttrs`). -/
def EventsAPiV2Client.init (store : String → Option String)
    (integration_key : Option String) (pagerduty_events_conn_id : Option String) :
    Except PyError EventsAPiV2Client :=
  -- self.integration_key = None ; self._session = None
  match pagerduty_events_conn_id with
  | some cid =>
      -- line 25: conn = self.get_connection(pagerduty_events_conn_id)
      match getattrOnClass EventsAPiV2Client.classAttrs "get_connection" with
      | .error e => .error e
      | .ok () =>
          -- line 26: self.integration_key = conn.get_password()
          match resolveKey (store cid) integration_key with
          | none => .error (.airflowException noTokenMsg)
          | some k => .ok ⟨some k, none⟩
  | none =>
      match resolveKey none integration_key with
      | none => .error (.airflowException noTokenMsg)
      | some k => .ok ⟨some k, none⟩

/-- Embedding of `EventsAPiV2Client.post_event` (lines 46-57): calls
`self._session.post_event(payload)` — an `AttributeError` when `_session` is
`None` — wraps a raised `pagerduty.PagerDutyError` into an
`AirflowException`, and otherwise returns `response["event"]["id"]`
(subscription errors are not caught by the `except` clause). -/
def EventsAPiV2Client.post_event (c : EventsAPiV2Client) (payload : PyVal) :
    Except PyError PyVal :=
  match c.session with
  | none => .error (.attributeError "post_event")
  | some s =>
      match s.post_event payload with
      | .ok response => response.getItem "event" >>= fun ev => ev.getItem "id"
      | .error (.pagerDutyError m) =>
          .error (.airflowException ("Failed to post event: " ++ m))
      | .error e => .error e

/-- Embedding of `EventsAPiV2Client.acknowledge_event` (lines 35-44). -/
def EventsAPiV2Client.acknowledge_event (c : EventsAPiV2Client)
    (event_id : String) : Except PyError Unit :=
  match c.session with
  | none => .error (.attributeError "acknowledge_event")
  | some s =>
      match s.acknowledge_event event_id with
      | .ok () => .ok ()
      | .error (.pagerDutyError m) =>
          .error (.airflowException ("Failed to acknowledge event: " ++ m))
      | .error e => .error e

/-- Embedding of `EventsAPiV2Client.resolve_event` (lines 69-78). -/
def EventsAPiV2Client.resolve_event (c : EventsAPiV2Client)
    (event_id : String) : Except PyError Unit :=
  match c.session with
  | none => .error (.attributeError "resolve_event")
  | some s =>
      match s.resolve_event event_id with
      | .ok () => .ok ()
      | .error (.pagerDutyError m) =>
          .error (.airflowException ("Failed to resolve event: " ++ m))
      | .error e => .error e

/-- Embedding of `EventsAPiV2Client.send_change_event` (lines 80-101): the
routing key defaults to the resolved integration key, then
`self._session.send_event(...)` is called (an `AttributeError` when
`_session` is `None`). -/
def EventsAPiV2Client.send_change_event (c : EventsAPiV2Client)
    (payload : PyVal) (event_type : String) (routing_key : Option String) :
    Except PyError PyVal :=
  let rk : Option String :=
    match routing_key with
    | none => c.integration_key
    | some r => some r
  match c.session with
  | none => .error (.attributeError "send_event")
  | some s =>
      match s.send_event payload event_type rk with
      | .ok response => response.getItem "event" >>= fun ev => ev.getItem "id"
      | .error (.pagerDutyError m) =>
          .error (.airflowException ("Failed to send change event: " ++ m))
      | .error e => .error e

/-- Embedding of `EventsAPiV2Client.prepare_headers` (lines 59-68). -/
def EventsAPiV2Client.prepare_headers (c : EventsAPiV2Client) :
    List (String × String) :=
  [("Authorization", "Token token=" ++ pyStr c.integration_key),
   ("Content-Type", "application/json")]

/-- Modelled from the spec: the helper `prepare_payload` that
`send_event` (line 133) calls is defined nowhere in the repository — the
class body has no such method and the class has no base class. Per the spec,
it "builds an EventPayload from the given fields (omitting absent
optionals)"; this definition follows those words and is only reachable on
the (dead) branch of `send_event` where the attribute lookup would succeed. -/
def prepare_payload (summary : String) (severity : String) (source : String)
    (custom_details : Option PyVal) (component : Option String)
    (group : Option String) (class_type : Option String) (action : String)
    (dedup_key : Option String) (images : Option (List PyVal))
    (links : Option (List PyVal)) : PyVal :=
  .dict
    ([("summary", .str summary), ("severity", .str severity),
      ("source", .str source)]
      ++ (match custom_details with
          | some d => [("custom_details", d)]
          | none => [])
      ++ (match component with
          | some v => [("component", PyVal.str v)]
          | none => [])
      ++ (match group with
          | some v => [("group", PyVal.str v)]
          | none => [])
      ++ (match class_type with
          | some v => [("class", PyVal.str v)]
          | none => [])
      ++ [("action", .str action)]
      ++ (match dedup_key with
          | some v => [("dedup_key", PyVal.str v)]
          | none => [])
      ++ (match images with
          | some v => [("images", PyVal.list v)]
          | none => [])
      ++ (match links with
          | some v => [("links", PyVal.list v)]
          | none => []))

/-- Embedding of `EventsAPiV2Client.send_event` (lines 103-146): the first
statement evaluates `self.prepare_payload`, an attribute lookup that fails —
see `EventsAPiV2Client.classAttrs` — so the call raises `AttributeError`
before any payload is built; the success branch (never reached for this
class) would post the built payload. -/
def EventsAPiV2Client.send_event (c : EventsAPiV2Client) (summary : String)
    (severity : String) (source : String) (custom_details : Option PyVal)
    (component : Option String) (group : Option String)
    (class_type : Option String) (action : String) (dedup_key : Option String)
    (images : Option (List PyVal)) (links : Option (List PyVal)) :
    Except PyError PyVal :=
  match getattrOnClass EventsAPiV2Client.classAttrs "prepare_payload" with
  | .error e => .error e
  | .ok () =>
      c.post_event (prepare_payload summary severity source custom_details
        component group class_type action dedup_key images links)

/-- Embedding of `EventsAPiV2Client.submit_event` (lines 148-190): its body is
a single call of `self.send_event` passing every parameter through by
keyword, unchanged. -/
def EventsAPiV2Client.submit_event (c : EventsAPiV2Client) (summary : String)
    (severity : String) (source : String) (custom_details : Option PyVal)
    (component : Option String) (group : Option String)
    (class_type : Option String) (action : String) (dedup_key : Option String)
    (images : Option (List PyVal)) (links : Option (List PyVal)) :
    Except PyError PyVal :=
  c.send_event summary severity source custom_details component group
    class_type action dedup_key images links

/-- Embedding of `EventsAPiV2Client.trigger_event` (lines 192-234): its body
is a single call of `self.send_event` passing every parameter through by
keyword, unchanged. -/
def EventsAPiV2Client.trigger_event (c : EventsAPiV2Client) (summary : String)
    (severity : String) (source : String) (custom_details : Option PyVal)
    (component : Option String) (group : Option String)
    (class_type : Option String) (action : String) (dedup_key : Option String)
    (images : Option (List PyVal)) (links : Option (List PyVal)) :
    Except PyError PyVal :=
  c.send_event summary severity source custom_details component group
    class_type action dedup_key images links

/-!
Embedding of `ApiClient` (file ApiClient.py). Two facts about that file drive
the claims:

1. The class body, executed at import time, runs statements top to bottom.
   Line 94 binds `print_debug = False`, so the guarded block at lines 95-100
   is skipped, but line 101 — `log = logging.NOTSET` — executes
   unconditionally, and the name `logging` is bound by no import of the
   module (see `ApiClientModule.moduleScope`). The class definition therefore
   raises `NameError` and the class object never comes into existence.

2. `request` (lines 103-114) is declared as `def request(method, url,
   **kwargs)` — no `self` parameter — and its only statement references the
   free names `self`, `params`, `data` and `headers`, none of which is bound
   in the function scope or at module scope. Python evaluates the callee
   `self._session.request` first, so the lookup of `self` raises `NameError`
   before the argument expressions, before any consultation of
   `permitted_methods`, and before anything reaches the Session.
-/

/-- Names bound at module scope of ApiClient.py by its five import
statements (lines 1-8). `logging` is not among them. -/
def ApiClientModule.moduleScope : List String :=
  ["annotations", "TYPE_CHECKING", "Any", "pagerduty", "AirflowException",
   "BaseHook"]

/-- Outcome of executing the class body of `ApiClient` at import time: the
statements up to line 94 only bind names in the class namespace; the block
guarded by `if print_debug is True:` is skipped since `print_debug` is
`False`; the final class-level statement `log = logging.NOTSET` (line 101)
resolves the free name `logging` at module scope and fails. -/
def ApiClient.classBodyResult : Except PyError Unit :=
  let print_debug := false
  if print_debug then
    resolveName ApiClientModule.moduleScope "logging"
  else
    resolveName ApiClientModule.moduleScope "logging"

/-- Embedding of the class attribute `ApiClient.permitted_methods`
(ApiClient.py lines 74-80). -/
def ApiClient.permitted_methods : List String :=
  ["GET", "POST", "PUT", "DELETE", "PATCH"]

/-- Embedding of `ApiClient.prepare_headers` (lines 88-90), declared as
`def prepare_headers(method, user_headers={})`: when invoked as a bound
method the instance binds to `method`, and the body returns `user_headers`
unchanged — by default the empty dict. The resolved token plays no part. -/
def ApiClient.prepare_headers (user_headers : List (String × String)) :
    List (String × String) :=
  user_headers

/-- Names bound in the function scope of `ApiClient.request` (line 103):
exactly its parameters. Class-level names are not visible from a method
body in Python, and ApiClient.py binds none of `self`, `params`, `data`,
`headers` at module scope either. -/
def ApiClient.requestScope : List String :=
  ["method", "url", "kwargs"]

/-- Free names that the single statement of `ApiClient.request` (line 113)
resolves, in evaluation order: the callee `self._session.request` is
evaluated first, then the keyword argument expressions `params`, `data`,
`headers`. -/
def ApiClient.requestFreeNames : List String :=
  ["self", "params", "data", "headers"]

/-- First name of `names` not bound in `scope` — the one whose lookup raises
the `NameError` that aborts the statement. -/
def firstUnbound (scope : List String) (names : List String) : Option String :=
  names.find? (fun n => !(scope.contains n))

/-- Embedding of `ApiClient.request` (lines 103-114). Only the
name-resolution prefix of the body is modelled: a result of `.ok ()` would
mean control reached the delegation to the Session, and the theorems below
show that this never happens — the body performs no validation against
`permitted_methods` at all. The parameters are carried to mirror the source
signature; the body never reads them. -/
def ApiClient.request (method : String) (url : String)
    (kwargs : List (String × PyVal)) : Except PyError Unit :=
  match firstUnbound ApiClient.requestScope ApiClient.requestFreeNames with
  | some n => .error (.nameError n)
  | none => .ok ()

/-- Does an outcome consist of raising `AirflowException` (the error kind the
spec names ConfigurationError / RemoteServiceError)? -/
def raisesAirflowException {α : Type} : Except PyError α → Bool
  | .error (.airflowException _) => true
  | _ => false

/-- Session oracle for which every library call succeeds, with `post_event`
answering the response structure of claim C5. -/
def okSessionW : EventsSession :=
  ⟨fun _ => .ok (.dict [("event", .dict [("id", .str "E1")])]),
   fun _ => .ok (), fun _ => .ok (), fun _ _ _ => .ok (.dict [])⟩

/-- Client carrying `okSessionW` in its session field. -/
def okClientW : EventsAPiV2Client := ⟨some "k", some okSessionW⟩

/-- Session oracle whose `post_event` raises the library error type with
message "boom". -/
def boomSessionW : EventsSession :=
  ⟨fun _ => .error (.pagerDutyError "boom"),
   fun _ => .ok (), fun _ => .ok (), fun _ _ _ => .ok (.dict [])⟩

/-- Client carrying `boomSessionW` in its session field. -/
def boomClientW : EventsAPiV2Client := ⟨some "k", some boomSessionW⟩

/-- C1: the claim states that whenever at least one of
(explicit_token, credential_reference) resolves, construction succeeds with
the expected token. Evaluating the code at the failing input — only
`pagerduty_events_conn_id` supplied, the store holding password "tok" —
`EventsAPiV2Client.__init__` raises `AttributeError` on `self.get_connection`
(the class has no base class and no such method), and the `ApiClient` class
body itself raises `NameError` on `logging` at import time, so no `ApiClient`
construction ever succeeds either. -/
theorem construction_with_conn_id_raises_attribute_error :
    EventsAPiV2Client.init (fun _ => some "tok") none (some "pagerduty_default")
      = .error (.attributeError "get_connection")
    ∧ EventsAPiV2Client.classAttrs.contains "get_connection" = false
    ∧ ApiClient.classBodyResult = .error (.nameError "logging") :=
  ⟨rfl, rfl, rfl⟩

/-- C2: the claim states that when neither input resolves, construction of
either adapter fails with ConfigurationError. For `EventsAPiV2Client` with
both inputs absent the code does raise `AirflowException` with the
no-token message; but the `ApiClient` class body dies with `NameError` on
the unimported name `logging`, so `ApiClient(None, None)` can never raise
ConfigurationError — its constructor never runs. -/
theorem construction_without_inputs_behavior :
    EventsAPiV2Client.init (fun _ => none) none none
      = .error (.airflowException noTokenMsg)
    ∧ ApiClient.classBodyResult = .error (.nameError "logging") :=
  ⟨rfl, rfl⟩

/-- C3: the claim states that `send_event` builds an EventPayload from its
arguments and forwards it to `post_event`. Evaluating the code at a concrete
argument tuple: the first statement of `send_event` looks up
`self.prepare_payload`, which is defined nowhere — the class dict has no such
entry and the class has no base class — so every call raises
`AttributeError` before any payload is built or posted. -/
theorem send_event_raises_attribute_error :
    EventsAPiV2Client.send_event ⟨some "k", none⟩ "Disk full" "critical"
      "db-01" none none none none "trigger" none none none
      = .error (.attributeError "prepare_payload")
    ∧ EventsAPiV2Client.classAttrs.contains "prepare_payload" = false :=
  ⟨rfl, rfl⟩

/-- C4: for every argument tuple, `submit_event` and `trigger_event` produce
exactly the same result (and hence the same outbound payload and the same
failure) as `send_event` on that tuple: each of their bodies is a single
call of `self.send_event` passing every parameter through unchanged. -/
theorem submit_and_trigger_equal_send_event (c : EventsAPiV2Client)
    (summary severity source : String) (custom_details : Option PyVal)
    (component group class_type : Option String) (action : String)
    (dedup_key : Option String) (images links : Option (List PyVal)) :
    c.submit_event summary severity source custom_details component group
        class_type action dedup_key images links
      = c.send_event summary severity source custom_details component group
        class_type action dedup_key images links
    ∧ c.trigger_event summary severity source custom_details component group
        class_type action dedup_key images links
      = c.send_event summary severity source custom_details component group
        class_type action dedup_key images links :=
  ⟨rfl, rfl⟩

/-- C5: for every payload, when the session call `post_event` succeeds and
returns the response structure `{"event": {"id": "E1"}}`, the method
`post_event` returns the string "E1". (Construction never populates
`_session` — see C9 — so the hypothesis describes a session installed on the
instance from outside, which is the only way the library call can run.) -/
theorem post_event_returns_event_id_on_success (c : EventsAPiV2Client)
    (s : EventsSession) (payload : PyVal) (hs : c.session = some s)
    (hp : s.post_event payload
      = .ok (.dict [("event", .dict [("id", .str "E1")])])) :
    c.post_event payload = .ok (.str "E1") := by
  simp [EventsAPiV2Client.post_event, hs, hp, PyVal.getItem]
  rfl

/-- Witness for C5 at a concrete client, session and payload. -/
theorem post_event_returns_event_id_on_success_witness :
    okClientW.session = some okSessionW
    ∧ okSessionW.post_event (.dict [])
      = .ok (.dict [("event", .dict [("id", .str "E1")])])
    ∧ okClientW.post_event (.dict []) = .ok (.str "E1") :=
  ⟨rfl, rfl,
    post_event_returns_event_id_on_success okClientW okSessionW (.dict [])
      rfl rfl⟩

/-- C6: for every payload, when the session call raises the library error
type with message "boom", `post_event` fails with `AirflowException` — the
error kind the spec calls RemoteServiceError — whose message is
"Failed to post event: " followed by "boom", so the original message is
preserved as a substring of the wrapped error. -/
theorem post_event_wraps_library_error (c : EventsAPiV2Client)
    (s : EventsSession) (payload : PyVal) (hs : c.session = some s)
    (hp : s.post_event payload = .error (.pagerDutyError "boom")) :
    c.post_event payload
      = .error (.airflowException ("Failed to post event: " ++ "boom")) := by
  simp [EventsAPiV2Client.post_event, hs, hp]

/-- Witness for C6 at a concrete client, session and payload. -/
theorem post_event_wraps_library_error_witness :
    boomClientW.session = some boomSessionW
    ∧ boomSessionW.post_event (.dict []) = .error (.pagerDutyError "boom")
    ∧ boomClientW.post_event (.dict [])
      = .error (.airflowException ("Failed to post event: " ++ "boom")) :=
  ⟨rfl, rfl,
    post_event_wraps_library_error boomClientW boomSessionW (.dict [])
      rfl rfl⟩

/-- C7 counterexample: the claim states that `prepare_headers` of every
adapter returns exactly two entries with the Authorization value derived
from the token. `ApiClient.prepare_headers`, invoked with its default
argument (the empty dict), returns the empty dict: zero entries and no
Authorization key at all. -/
theorem api_client_prepare_headers_counterexample :
    ApiClient.prepare_headers [] = []
    ∧ (ApiClient.prepare_headers []).length ≠ 2
    ∧ (ApiClient.prepare_headers []).lookup "Authorization" = none :=
  ⟨rfl, by decide, rfl⟩

/-- C7 amended: for every constructed `EventsAPiV2Client`, `prepare_headers`
returns exactly two entries, Authorization being "Token token=" followed by
the resolved token and Content-Type being "application/json";
`ApiClient.prepare_headers`, by contrast, returns its `user_headers`
argument unchanged (the empty dict by default) and ignores the token. -/
theorem prepare_headers_amended_contract (store : String → Option String)
    (ik ci : Option String) (c : EventsAPiV2Client) (tok : String)
    (h : EventsAPiV2Client.init store ik ci = .ok c)
    (htok : c.integration_key = some tok)
    (user_headers : List (String × String)) :
    c.prepare_headers.length = 2
    ∧ c.prepare_headers.lookup "Authorization"
      = some ("Token token=" ++ tok)
    ∧ c.prepare_headers.lookup "Content-Type" = some "application/json"
    ∧ ApiClient.prepare_headers user_headers = user_headers := by
  have hform : c.prepare_headers
      = [("Authorization", "Token token=" ++ tok),
         ("Content-Type", "application/json")] := by
    unfold EventsAPiV2Client.prepare_headers
    rw [htok]
    rfl
  rw [hform]
  exact ⟨rfl, rfl, rfl, rfl⟩

/-- Witness for C7 at a concrete construction and concrete headers. -/
theorem prepare_headers_amended_contract_witness :
    EventsAPiV2Client.init (fun _ => none) (some "k") none
      = .ok ⟨some "k", none⟩
    ∧ (⟨some "k", none⟩ : EventsAPiV2Client).prepare_headers.length = 2
    ∧ (⟨some "k", none⟩ : EventsAPiV2Client).prepare_headers.lookup
        "Authorization" = some ("Token token=" ++ "k")
    ∧ (⟨some "k", none⟩ : EventsAPiV2Client).prepare_headers.lookup
        "Content-Type" = some "application/json"
    ∧ ApiClient.prepare_headers [("X-Custom", "y")] = [("X-Custom", "y")] := by
  have h := prepare_headers_amended_contract (fun _ => none) (some "k") none
    ⟨some "k", none⟩ "k" rfl rfl [("X-Custom", "y")]
  exact ⟨rfl, h.1, h.2.1, h.2.2.1, h.2.2.2⟩

/-- C8 counterexample: the claim states that `request("OPTIONS", url)` is
rejected with ConfigurationError. Evaluating the code at a concrete url: the
outcome is a `NameError` on the unbound name `self`, not an
`AirflowException` of any kind. -/
theorem request_options_not_configuration_error :
    raisesAirflowException
      (ApiClient.request "OPTIONS" "https://api.pagerduty.com/incidents" [])
      = false
    ∧ ApiClient.request "OPTIONS" "https://api.pagerduty.com/incidents" []
      = .error (.nameError "self") :=
  ⟨rfl, rfl⟩

/-- C8 amended: `request("OPTIONS", url)` — like every call of `request`
with any method — fails with a `NameError` on the unbound name `self` before
the permitted-method set (which indeed excludes OPTIONS) is ever consulted
and before any delegation to the Session; it is not a ConfigurationError. -/
theorem request_options_name_error_amended (url : String)
    (kwargs : List (String × PyVal)) :
    ApiClient.request "OPTIONS" url kwargs = .error (.nameError "self")
    ∧ ApiClient.request "OPTIONS" url kwargs ≠ .ok ()
    ∧ ApiClient.permitted_methods.contains "OPTIONS" = false := by
  refine ⟨rfl, ?_, rfl⟩
  intro hcontra
  exact Except.noConfusion
    ((rfl : ApiClient.request "OPTIONS" url kwargs
        = .error (.nameError "self")).symm.trans hcontra)

/-- C9: every successfully constructed `EventsAPiV2Client` has `_session`
equal to `None` — `__init__` sets it so and no method of the class ever
assigns it (every operation is modelled as pure for exactly that reason) —
and therefore every call of `post_event`, `acknowledge_event`,
`resolve_event` or `send_change_event` raises `AttributeError` on the
`None`-valued session, before any external service could be contacted. -/
theorem session_remains_none_and_ops_fail (store : String → Option String)
    (ik ci : Option String) (c : EventsAPiV2Client)
    (h : EventsAPiV2Client.init store ik ci = .ok c)
    (p q : PyVal) (ack_id res_id : String) (event_type : String)
    (routing_key : Option String) :
    c.session = none
    ∧ c.post_event p = .error (.attributeError "post_event")
    ∧ c.acknowledge_event ack_id = .error (.attributeError "acknowledge_event")
    ∧ c.resolve_event res_id = .error (.attributeError "resolve_event")
    ∧ c.send_change_event q event_type routing_key
      = .error (.attributeError "send_event") := by
  have hc : c.session = none := by
    cases ci with
    | some cid => exact Except.noConfusion h
    | none =>
        cases ik with
        | none => exact Except.noConfusion h
        | some k =>
            have h2 : (Except.ok ⟨some k, none⟩ :
                Except PyError EventsAPiV2Client) = .ok c := h
            have h3 : (⟨some k, none⟩ : EventsAPiV2Client) = c :=
              Except.ok.inj h2
            rw [← h3]
  refine ⟨hc, ?_, ?_, ?_, ?_⟩ <;>
    simp [EventsAPiV2Client.post_event, EventsAPiV2Client.acknowledge_event,
      EventsAPiV2Client.resolve_event, EventsAPiV2Client.send_change_event,
      hc]

/-- Witness for C9 at a concrete construction and concrete arguments. -/
theorem session_remains_none_and_ops_fail_witness :
    EventsAPiV2Client.init (fun _ => none) (some "k") none
      = .ok ⟨some "k", none⟩
    ∧ (⟨some "k", none⟩ : EventsAPiV2Client).session = none
    ∧ (⟨some "k", none⟩ : EventsAPiV2Client).post_event (.dict [])
      = .error (.attributeError "post_event")
    ∧ (⟨some "k", none⟩ : EventsAPiV2Client).acknowledge_event "E1"
      = .error (.attributeError "acknowledge_event")
    ∧ (⟨some "k", none⟩ : EventsAPiV2Client).resolve_event "E1"
      = .error (.attributeError "resolve_event")
    ∧ (⟨some "k", none⟩ : EventsAPiV2Client).send_change_event (.dict [])
        "trigger" none = .error (.attributeError "send_event") := by
  have h := session_remains_none_and_ops_fail (fun _ => none) (some "k") none
    ⟨some "k", none⟩ rfl (.dict []) (.dict []) "E1" "E1" "trigger" none
  exact ⟨rfl, h.1, h.2.1, h.2.2.1, h.2.2.2.1, h.2.2.2.2⟩

/-- C10: for every method, url and keyword options, `ApiClient.request`
raises a `NameError` — the first free name it resolves, `self`, is bound
neither among its parameters nor at module scope — before any
permitted-method check and before anything reaches the Session (a result of
`.ok ()` would mean the Session delegation was reached). -/
theorem request_always_raises_name_error (method url : String)
    (kwargs : List (String × PyVal)) :
    ApiClient.request method url kwargs = .error (.nameError "self")
    ∧ ApiClient.request method url kwargs ≠ .ok ()
    ∧ firstUnbound ApiClient.requestScope ApiClient.requestFreeNames
      = some "self" := by
  refine ⟨rfl, ?_, rfl⟩
  intro hcontra
  exact Except.noConfusion
    ((rfl : ApiClient.request method url kwargs
        = .error (.nameError "self")).symm.trans hcontra)
